import Mathlib

/-!
Verification of the Song Service (backend/routes.py): a Flask + MongoDB CRUD
service over a single `songs` collection.

Shallow embedding conventions:
* A BSON document / Python dict is an association list `Doc` with first-wins
  lookup (`dlookup`) and in-place key update (`dictSet`), matching dict
  semantics (dict keys are unique; request bodies carry a `Nodup` key
  hypothesis where a proof needs it).
* BSON values are modelled by `Value`: integers, strings, and ObjectId
  (`vOid`), the internal identifier generated by the driver.
* The Mongo collection is a list of documents plus a counter used to generate
  fresh ObjectIds. `find_one`/`update_one`/`delete_one` act on the first
  matching document, as Mongo does.
* Each route handler becomes a pure function `... → DB → Resp × DB`. The
  Python `try`/`except` wrapper turns an exception into a 500 `error` body;
  the deterministic exceptions of the handlers (KeyError on a missing dict
  key, TypeError on subscripting None or on jsonify of a raw ObjectId) are
  embedded explicitly at the point where Python raises them. Network or
  database faults are outside the embedding: database calls always succeed.
* `json_util.dumps` followed by `json.loads` (used by the GET handlers)
  preserves every key of the document, rendering an ObjectId value as an
  extended-JSON object; the embedding keeps the document unchanged, so a key
  is present in the modelled response exactly when it is present in the real
  one. Flask `jsonify` applied to a *raw* pymongo document (as in the PUT
  success branch) raises TypeError when the document still contains an
  ObjectId value; `jsonifyRawResp` models this.
-/

inductive Value where
  | vInt (n : Int)
  | vStr (s : String)
  | vOid (n : Nat)
deriving Repr, DecidableEq

/-- Rendering used by Python f-strings and by `str(result.inserted_id)`.
The exact hex spelling of an ObjectId is abstracted by its counter value. -/
def valueStr : Value → String
  | .vInt n => toString n
  | .vStr s => s
  | .vOid n => "oid-" ++ toString n

/-- A Python dict / BSON document: association list, first-wins lookup. -/
abbrev Doc := List (String × Value)

/-- Dict lookup, `d[k]` when present: first binding wins. -/
def dlookup : Doc → String → Option Value
  | [], _ => none
  | (k', v) :: rest, k => if k' = k then some v else dlookup rest k

/-- Dict assignment `d[k] = v`: replaces the binding in place, else appends. -/
def dictSet : Doc → String → Value → Doc
  | [], k, v => [(k, v)]
  | (k', v') :: rest, k, v =>
      if k' = k then (k, v) :: rest else (k', v') :: dictSet rest k v

/-- Effect of Mongo `$set` with update document `u` on a stored document. -/
def applySet (d : Doc) (u : Doc) : Doc :=
  u.foldl (fun acc kv => dictSet acc kv.1 kv.2) d

/-- Mongo `find_one` on filter `field k == v`: first matching document. -/
def findOne : List Doc → String → Value → Option Doc
  | [], _, _ => none
  | d :: rest, k, v => if dlookup d k = some v then some d else findOne rest k v

/-- Mongo `update_one` with a `$set`: rewrites the first matching document. -/
def updateFirst : List Doc → String → Value → Doc → List Doc
  | [], _, _, _ => []
  | d :: rest, k, v, u =>
      if dlookup d k = some v then applySet d u :: rest
      else d :: updateFirst rest k v u

/-- Mongo `delete_one`: removes the first matching document; also returns
the `deleted_count` (0 or 1). -/
def deleteOne : List Doc → String → Value → Nat × List Doc
  | [], _, _ => (0, [])
  | d :: rest, k, v =>
      if dlookup d k = some v then (1, rest)
      else
        let r := deleteOne rest k v
        (r.1, d :: r.2)

/-- The `songs` collection together with the ObjectId generator state. -/
structure DB where
  songs : List Doc
  next : Nat
deriving Repr, DecidableEq

/-- Mongo `insert_one`: pymongo adds an `_id` ObjectId to the document when it
has none, appends the document to the collection, and reports the inserted
id. -/
def insertOne (db : DB) (d : Doc) : Value × DB :=
  match dlookup d "_id" with
  | some v => (v, ⟨db.songs ++ [d], db.next⟩)
  | none =>
      (Value.vOid db.next,
       ⟨db.songs ++ [d ++ [("_id", Value.vOid db.next)]], db.next + 1⟩)

/-- Mongo `insert_many`: `insert_one` on each record in order. -/
def insertMany (db : DB) (ds : List Doc) : DB :=
  ds.foldl (fun a d => (insertOne a d).2) db

/-- Startup seeding (module level in routes.py): when the loaded seed list is
non-empty, drop the collection and bulk-insert the seed; an empty seed list
(also produced by a read or parse failure of songs.json) leaves the
collection untouched. -/
def initDb (seed : List Doc) (db : DB) : DB :=
  if seed.isEmpty then db else insertMany ⟨[], db.next⟩ seed

/-- JSON response bodies produced by the handlers. -/
inductive RespBody where
  | jsonMsg (key msg : String)
  | jsonDoc (d : Doc)
  | jsonDocList (ds : List Doc)
  | jsonCount (n : Nat)
  | emptyBody
deriving Repr, DecidableEq

/-- An HTTP response: status code and JSON body. -/
abbrev Resp := Nat × RespBody

/-- GET /health (success path; a ping failure is a network fault outside the
embedding). -/
def health (db : DB) : Resp × DB :=
  ((200, .jsonMsg "status" "OK"), db)

/-- GET /count: `count_documents` on an empty filter counts every document. -/
def count (db : DB) : Resp × DB :=
  ((200, .jsonCount db.songs.length), db)

/-- GET /song: every document, serialised by `json_util.dumps` (all keys kept,
`_id` rendered in extended JSON). -/
def songs (db : DB) : Resp × DB :=
  ((200, .jsonDocList db.songs), db)

/-- GET /song/(id): `find_one` on the integer id from the path. -/
def get_song_by_id (id : Int) (db : DB) : Resp × DB :=
  match findOne db.songs "id" (.vInt id) with
  | none => ((404, .jsonMsg "message" "song with id not found"), db)
  | some song => ((200, .jsonDoc song), db)

/-- POST /song: `song_data[\x7b"id"\x7d]` raises KeyError (500) when the body has no
id; a matching existing document yields 302; otherwise the body is inserted
and the generated id acknowledged with 201. -/
def create_song (body : Doc) (db : DB) : Resp × DB :=
  match dlookup body "id" with
  | none => ((500, .jsonMsg "error" "KeyError: id"), db)
  | some idv =>
      match findOne db.songs "id" idv with
      | some _ =>
          ((302, .jsonMsg "Message"
              ("song with id " ++ valueStr idv ++ " already present")), db)
      | none =>
          let r := insertOne db body
          ((201, .jsonMsg "inserted id" (valueStr r.1)), r.2)

/-- Flask `jsonify` applied to a raw pymongo document (PUT success branch):
raises TypeError when the document contains an ObjectId value. -/
def jsonifyRawResp (d : Doc) : Resp :=
  if d.any (fun kv => match kv.2 with | .vOid _ => true | _ => false) then
    (500, .jsonMsg "error" "TypeError: ObjectId is not JSON serializable")
  else (200, .jsonDoc d)

/-- Response computation of PUT /song/(id) after the write, from the re-fetched
document (None when the write changed the id away) and the request body.
Mirrors the Python evaluation order: `updated_song` subscripting first, then
`song_data`, lyrics before title, `and` short-circuiting. -/
def updateResp (updated? : Option Doc) (body : Doc) : Resp :=
  match updated? with
  | none => (500, .jsonMsg "error" "TypeError: NoneType is not subscriptable")
  | some updated =>
      match dlookup updated "lyrics" with
      | none => (500, .jsonMsg "error" "KeyError: lyrics")
      | some ul =>
          match dlookup body "lyrics" with
          | none => (500, .jsonMsg "error" "KeyError: lyrics")
          | some bl =>
              if ul = bl then
                match dlookup updated "title" with
                | none => (500, .jsonMsg "error" "KeyError: title")
                | some ut =>
                    match dlookup body "title" with
                    | none => (500, .jsonMsg "error" "KeyError: title")
                    | some bt =>
                        if ut = bt then
                          (200, .jsonMsg "message"
                              "song found, but nothing updated")
                        else jsonifyRawResp updated
              else jsonifyRawResp updated

/-- PUT /song/(id): 404 when no document matches; otherwise `update_one` with
`$set` rewrites the first match, the document is re-fetched, and the
response is computed from it; every exception after the write leaves the
write in place (the except clause does not roll back). -/
def update_song (id : Int) (body : Doc) (db : DB) : Resp × DB :=
  match findOne db.songs "id" (.vInt id) with
  | none => ((404, .jsonMsg "message" "song not found"), db)
  | some _ =>
      let db' : DB := { db with songs := updateFirst db.songs "id" (.vInt id) body }
      (updateResp (findOne db'.songs "id" (.vInt id)) body, db')

/-- DELETE /song/(id): `delete_one`, then 404 on `deleted_count == 0`,
else 204 with an empty body. -/
def delete_song (id : Int) (db : DB) : Resp × DB :=
  let r := deleteOne db.songs "id" (.vInt id)
  if r.1 = 0 then ((404, .jsonMsg "message" "song not found"), { db with songs := r.2 })
  else ((204, .emptyBody), { db with songs := r.2 })

/-- One endpoint invocation, as a step on the database state. -/
inductive Step : DB → DB → Prop where
  | healthStep (db : DB) : Step db (health db).2
  | countStep (db : DB) : Step db (count db).2
  | listStep (db : DB) : Step db (songs db).2
  | getStep (i : Int) (db : DB) : Step db (get_song_by_id i db).2
  | postStep (b : Doc) (db : DB) : Step db (create_song b db).2
  | putStep (i : Int) (b : Doc) (db : DB) : Step db (update_song i b db).2
  | delStep (i : Int) (db : DB) : Step db (delete_song i db).2

/-- States reachable from startup (seeding an empty store from some seed
file) by any sequence of endpoint operations. -/
inductive Reachable : DB → Prop where
  | init (seed : List Doc) : Reachable (initDb seed ⟨[], 0⟩)
  | step {a b : DB} : Reachable a → Step a b → Reachable b

/-- The application-level ids of the collection, in order. -/
def idTags (s : List Doc) : List (Option Value) :=
  s.map (fun d => dlookup d "id")

/-- No two documents share an application-level id (documents without an id
field are not constrained). -/
abbrev idsUnique (s : List Doc) : Prop :=
  (idTags s).Pairwise (fun a b => a = none ∨ a ≠ b)

/-! Basic dictionary lemmas -/

theorem dlookup_append_left {d e : Doc} {k : String} {v : Value}
    (h : dlookup d k = some v) : dlookup (d ++ e) k = some v := by
  induction d with
  | nil => simp [dlookup] at h
  | cons kv rest ih =>
      obtain ⟨k', v'⟩ := kv
      simp only [dlookup, List.cons_append] at h ⊢
      by_cases hk : k' = k
      · simpa [hk] using h
      · simp only [hk, if_false] at h ⊢
        exact ih h

theorem dlookup_append_none {d e : Doc} {k : String}
    (h : dlookup d k = none) : dlookup (d ++ e) k = dlookup e k := by
  induction d with
  | nil => simp [dlookup]
  | cons kv rest ih =>
      obtain ⟨k', v'⟩ := kv
      simp only [dlookup, List.cons_append] at h ⊢
      by_cases hk : k' = k
      · simp [hk] at h
      · simp only [hk, if_false] at h ⊢
        exact ih h

theorem dlookup_eq_none_of_not_mem {d : Doc} {k : String}
    (h : k ∉ d.map Prod.fst) : dlookup d k = none := by
  induction d with
  | nil => rfl
  | cons kv rest ih =>
      obtain ⟨k', v'⟩ := kv
      simp only [List.map_cons, List.mem_cons] at h
      push_neg at h
      simp only [dlookup, if_neg (fun hc : k' = k => h.1 hc.symm)]
      exact ih h.2

theorem dictSet_lookup_self (d : Doc) (k : String) (v : Value) :
    dlookup (dictSet d k v) k = some v := by
  induction d with
  | nil => simp [dictSet, dlookup]
  | cons kv rest ih =>
      obtain ⟨k', v'⟩ := kv
      by_cases hk : k' = k
      · simp [dictSet, hk, dlookup]
      · simp [dictSet, hk, dlookup, ih]

theorem dictSet_lookup_ne (d : Doc) {k k' : String} (v : Value) (h : k' ≠ k) :
    dlookup (dictSet d k v) k' = dlookup d k' := by
  have hkk : ¬ k = k' := fun hc => h hc.symm
  induction d with
  | nil => simp [dictSet, dlookup, hkk]
  | cons kv rest ih =>
      obtain ⟨k0, v0⟩ := kv
      by_cases hk : k0 = k
      · subst hk
        simp [dictSet, dlookup, hkk]
      · simp only [dictSet, if_neg hk, dlookup]
        rw [ih]

theorem applySet_nil (d : Doc) : applySet d [] = d := rfl

theorem applySet_cons (d : Doc) (k : String) (v : Value) (rest : Doc) :
    applySet d ((k, v) :: rest) = applySet (dictSet d k v) rest := rfl

theorem applySet_lookup_none {u : Doc} {k : String} (d : Doc)
    (h : dlookup u k = none) : dlookup (applySet d u) k = dlookup d k := by
  induction u generalizing d with
  | nil => rfl
  | cons kv rest ih =>
      obtain ⟨k1, v1⟩ := kv
      simp only [dlookup] at h
      by_cases hk : k1 = k
      · rw [if_pos hk] at h
        exact absurd h (by simp)
      · rw [if_neg hk] at h
        rw [applySet_cons, ih _ h, dictSet_lookup_ne _ _ (fun hc => hk hc.symm)]

theorem applySet_lookup_some {u : Doc} {k : String} {v : Value} (d : Doc)
    (hnd : (u.map Prod.fst).Nodup) (h : dlookup u k = some v) :
    dlookup (applySet d u) k = some v := by
  induction u generalizing d with
  | nil => simp [dlookup] at h
  | cons kv rest ih =>
      obtain ⟨k1, v1⟩ := kv
      simp only [List.map_cons, List.nodup_cons] at hnd
      simp only [dlookup] at h
      rw [applySet_cons]
      by_cases hk : k1 = k
      · rw [if_pos hk] at h
        have hv : v1 = v := by simpa using h
        subst hk
        rw [applySet_lookup_none _ (dlookup_eq_none_of_not_mem hnd.1),
            dictSet_lookup_self, hv]
      · rw [if_neg hk] at h
        exact ih _ hnd.2 h

/-! Lemmas about find_one, update_one, delete_one, insert_many -/

theorem findOne_eq_none {s : List Doc} {k : String} {v : Value} :
    findOne s k v = none ↔ ∀ d ∈ s, dlookup d k ≠ some v := by
  induction s with
  | nil => simp [findOne]
  | cons d rest ih =>
      by_cases hd : dlookup d k = some v
      · simp [findOne, hd]
      · simp [findOne, hd, ih]

theorem findOne_some_lookup {s : List Doc} {k : String} {v : Value} {d : Doc}
    (h : findOne s k v = some d) : dlookup d k = some v := by
  induction s with
  | nil => simp [findOne] at h
  | cons e rest ih =>
      by_cases he : dlookup e k = some v
      · rw [findOne, if_pos he] at h
        cases h
        exact he
      · rw [findOne, if_neg he] at h
        exact ih h

theorem findOne_some_mem {s : List Doc} {k : String} {v : Value} {d : Doc}
    (h : findOne s k v = some d) : d ∈ s := by
  induction s with
  | nil => simp [findOne] at h
  | cons e rest ih =>
      by_cases he : dlookup e k = some v
      · rw [findOne, if_pos he] at h
        cases h
        exact List.mem_cons_self _ _
      · rw [findOne, if_neg he] at h
        exact List.mem_cons_of_mem _ (ih h)

theorem findOne_append_none {s1 s2 : List Doc} {k : String} {v : Value}
    (h : findOne s1 k v = none) : findOne (s1 ++ s2) k v = findOne s2 k v := by
  induction s1 with
  | nil => rfl
  | cons d rest ih =>
      by_cases hd : dlookup d k = some v
      · rw [findOne, if_pos hd] at h
        exact absurd h (by simp)
      · rw [findOne, if_neg hd] at h
        rw [List.cons_append, findOne, if_neg hd]
        exact ih h

theorem findOne_updateFirst {s : List Doc} {k : String} {v : Value} {d u : Doc}
    (h : findOne s k v = some d) (hset : dlookup (applySet d u) k = some v) :
    findOne (updateFirst s k v u) k v = some (applySet d u) := by
  induction s with
  | nil => simp [findOne] at h
  | cons e rest ih =>
      by_cases he : dlookup e k = some v
      · rw [findOne, if_pos he] at h
        cases h
        rw [updateFirst, if_pos he, findOne, if_pos hset]
      · rw [findOne, if_neg he] at h
        rw [updateFirst, if_neg he, findOne, if_neg he]
        exact ih h

theorem updateFirst_eq_set {s : List Doc} {k : String} {v : Value} {d : Doc}
    (u : Doc) (h : findOne s k v = some d) :
    ∃ i, s.get? i = some d ∧
      (∀ j, j < i → ∀ e, s.get? j = some e → dlookup e k ≠ some v) ∧
      updateFirst s k v u = s.set i (applySet d u) := by
  induction s with
  | nil => simp [findOne] at h
  | cons e rest ih =>
      by_cases he : dlookup e k = some v
      · rw [findOne, if_pos he] at h
        cases h
        exact ⟨0, rfl, by omega, by rw [updateFirst, if_pos he]; rfl⟩
      · rw [findOne, if_neg he] at h
        obtain ⟨i, hi, hbefore, heq⟩ := ih h
        refine ⟨i + 1, hi, ?_, ?_⟩
        · intro j hj e' he'
          match j with
          | 0 =>
              cases he'
              exact he
          | j' + 1 => exact hbefore j' (by omega) e' he'
        · rw [updateFirst, if_neg he, heq]
          rfl

theorem deleteOne_of_none {s : List Doc} {k : String} {v : Value}
    (h : findOne s k v = none) : deleteOne s k v = (0, s) := by
  induction s with
  | nil => rfl
  | cons d rest ih =>
      by_cases hd : dlookup d k = some v
      · rw [findOne, if_pos hd] at h
        exact absurd h (by simp)
      · rw [findOne, if_neg hd] at h
        rw [deleteOne, if_neg hd]
        simp [ih h]

theorem deleteOne_of_some {s : List Doc} {k : String} {v : Value} {d : Doc}
    (h : findOne s k v = some d) :
    (deleteOne s k v).1 = 1 ∧
      ∃ l1 l2, s = l1 ++ d :: l2 ∧ (∀ e ∈ l1, dlookup e k ≠ some v) ∧
        (deleteOne s k v).2 = l1 ++ l2 := by
  induction s with
  | nil => simp [findOne] at h
  | cons e rest ih =>
      by_cases he : dlookup e k = some v
      · rw [findOne, if_pos he] at h
        cases h
        exact ⟨by rw [deleteOne, if_pos he], [], rest, rfl, by simp,
          by rw [deleteOne, if_pos he]; rfl⟩
      · rw [findOne, if_neg he] at h
        obtain ⟨hc, l1, l2, hs, hl1, hsnd⟩ := ih h
        refine ⟨?_, e :: l1, l2, by simp [hs], ?_, ?_⟩
        · rw [deleteOne, if_neg he]
          simpa using hc
        · intro e' he'
          rcases List.mem_cons.mp he' with rfl | hmem
          · exact he
          · exact hl1 e' hmem
        · rw [deleteOne, if_neg he]
          simpa using hsnd

theorem deleteOne_sublist (s : List Doc) (k : String) (v : Value) :
    (deleteOne s k v).2.Sublist s := by
  induction s with
  | nil => exact List.Sublist.refl _
  | cons d rest ih =>
      by_cases hd : dlookup d k = some v
      · rw [deleteOne, if_pos hd]
        exact List.sublist_cons_self _ _
      · rw [deleteOne, if_neg hd]
        exact List.Sublist.cons₂ _ ih

/-! Lemmas about id tags, uniqueness, and insertion -/

theorem idTags_cons (d : Doc) (s : List Doc) :
    idTags (d :: s) = dlookup d "id" :: idTags s := rfl

theorem idTags_append (s1 s2 : List Doc) :
    idTags (s1 ++ s2) = idTags s1 ++ idTags s2 := by
  simp [idTags]

theorem idTags_updateFirst {s : List Doc} {k : String} {v : Value} {u : Doc}
    (h : ∀ d, dlookup d k = some v →
      dlookup (applySet d u) "id" = dlookup d "id") :
    idTags (updateFirst s k v u) = idTags s := by
  induction s with
  | nil => rfl
  | cons d rest ih =>
      by_cases hd : dlookup d k = some v
      · rw [updateFirst, if_pos hd, idTags_cons, idTags_cons, h d hd]
      · rw [updateFirst, if_neg hd, idTags_cons, idTags_cons, ih]

theorem idsUnique_of_sublist {s1 s2 : List Doc} (h : s1.Sublist s2)
    (hu : idsUnique s2) : idsUnique s1 :=
  List.Pairwise.sublist (List.Sublist.map _ h) hu

theorem findOne_deleteOne_of_unique {s : List Doc} {v : Value}
    (hu : idsUnique s) :
    findOne (deleteOne s "id" v).2 "id" v = none := by
  induction s with
  | nil => rfl
  | cons d rest ih =>
      rw [idsUnique, idTags_cons, List.pairwise_cons] at hu
      by_cases hd : dlookup d "id" = some v
      · rw [deleteOne, if_pos hd]
        rw [findOne_eq_none]
        intro e he hev
        rcases hu.1 (dlookup e "id") (List.mem_map_of_mem _ he) with h0 | hne
        · rw [h0] at hd
          exact absurd hd (by simp)
        · rw [hd, hev] at hne
          exact hne rfl
      · rw [deleteOne, if_neg hd]
        show findOne (d :: (deleteOne rest "id" v).2) "id" v = none
        rw [findOne, if_neg hd]
        exact ih hu.2

theorem insertOne_songs (db : DB) (d : Doc) :
    ∃ d', (insertOne db d).2.songs = db.songs ++ [d'] ∧
      (∀ k v, dlookup d k = some v → dlookup d' k = some v) ∧
      dlookup d' "id" = dlookup d "id" := by
  rw [insertOne]
  cases hid : dlookup d "_id" with
  | some v => exact ⟨d, rfl, fun _ _ h => h, rfl⟩
  | none =>
      refine ⟨d ++ [("_id", Value.vOid db.next)], rfl,
        fun k v h => dlookup_append_left h, ?_⟩
      cases hi : dlookup d "id" with
      | some w => rw [dlookup_append_left hi]
      | none =>
          rw [dlookup_append_none hi]
          simp [dlookup]

theorem insertMany_songs (db : DB) (ds : List Doc) :
    ∃ ds', (insertMany db ds).songs = db.songs ++ ds' ∧
      List.Forall₂ (fun r d =>
        (∀ k v, dlookup r k = some v → dlookup d k = some v) ∧
        dlookup d "id" = dlookup r "id") ds ds' := by
  induction ds generalizing db with
  | nil => exact ⟨[], by simp [insertMany], List.Forall₂.nil⟩
  | cons r rest ih =>
      obtain ⟨r', hr, hpres, hid⟩ := insertOne_songs db r
      obtain ⟨ds', hds, hall⟩ := ih (insertOne db r).2
      refine ⟨r' :: ds', ?_, List.Forall₂.cons ⟨hpres, hid⟩ hall⟩
      show (insertMany (insertOne db r).2 rest).songs = _
      rw [hds, hr]
      simp

/-! Concrete states used by witnesses and counterexamples -/

/-- A stored song with internal identifier, as produced by seeding. -/
def songA : Doc :=
  [("id", Value.vInt 1), ("title", Value.vStr "a"),
   ("lyrics", Value.vStr "b"), ("_id", Value.vOid 0)]

/-- A second stored song. -/
def songB : Doc :=
  [("id", Value.vInt 2), ("title", Value.vStr "c"),
   ("lyrics", Value.vStr "d"), ("_id", Value.vOid 1)]

/-- A state holding one song. -/
def dbA : DB := ⟨[songA], 1⟩

/-- A state holding two songs with distinct ids. -/
def dbAB : DB := ⟨[songA, songB], 2⟩

/-- A two-record seed file content (seed records carry no internal id). -/
def seedAB : List Doc :=
  [[("id", Value.vInt 1), ("title", Value.vStr "a"), ("lyrics", Value.vStr "b")],
   [("id", Value.vInt 2), ("title", Value.vStr "c"), ("lyrics", Value.vStr "d")]]

/-- A PUT body that rewrites the id of the matched document to 2. -/
def putBodyDup : Doc :=
  [("id", Value.vInt 2), ("title", Value.vStr "t"), ("lyrics", Value.vStr "l")]

/-- The state reached by seeding from `seedAB` and then issuing
PUT /song/1 with `putBodyDup`: both documents now carry id 2. -/
def dupDB : DB := (update_song 1 putBodyDup (initDb seedAB ⟨[], 0⟩)).2

/-! Claim C8 -/

/-- C8: for every integer id such that no document in the collection has that
id, GET /song/(id) returns 404 with message "song with id not found" and the
collection is unchanged. -/
theorem C8_get_missing_404 (id : Int) (db : DB)
    (h : findOne db.songs "id" (.vInt id) = none) :
    get_song_by_id id db =
      ((404, .jsonMsg "message" "song with id not found"), db) := by
  simp [get_song_by_id, h]

/-- Witness for C8 at id 5 on a one-song state. -/
theorem C8_get_missing_404_witness :
    findOne dbA.songs "id" (Value.vInt 5) = none ∧
    get_song_by_id 5 dbA =
      ((404, RespBody.jsonMsg "message" "song with id not found"), dbA) :=
  ⟨by decide, C8_get_missing_404 5 dbA (by decide)⟩

/-! Helper facts about the PUT handler -/

theorem update_song_found {id : Int} {body : Doc} {db : DB} {d : Doc}
    (h : findOne db.songs "id" (.vInt id) = some d) :
    update_song id body db =
      (updateResp
        (findOne (updateFirst db.songs "id" (.vInt id) body) "id" (.vInt id))
        body,
       { db with songs := updateFirst db.songs "id" (.vInt id) body }) := by
  simp [update_song, h]

theorem update_song_missing {id : Int} {body : Doc} {db : DB}
    (h : findOne db.songs "id" (.vInt id) = none) :
    update_song id body db = ((404, .jsonMsg "message" "song not found"), db) := by
  simp [update_song, h]

theorem applySet_id_preserved {body d : Doc} {id : Int}
    (hd : dlookup d "id" = some (.vInt id))
    (hnd : (body.map Prod.fst).Nodup)
    (hbid : dlookup body "id" = none ∨ dlookup body "id" = some (.vInt id)) :
    dlookup (applySet d body) "id" = some (.vInt id) := by
  rcases hbid with h | h
  · rw [applySet_lookup_none _ h, hd]
  · rw [applySet_lookup_some _ hnd h]

/-! Claim C2 -/

/-- C2: POST /song with a body whose id equals the id of a stored document
returns 302 with Message "song with id (id) already present" and leaves the
whole state, the original document included, unchanged; with an id no
document has, the body is inserted as a new document and 201 is returned
acknowledging the generated internal id. -/
theorem C2_create_conflict_or_insert (body : Doc) (db : DB) (idv : Value)
    (hid : dlookup body "id" = some idv) :
    (∀ d, findOne db.songs "id" idv = some d →
      create_song body db =
        ((302, .jsonMsg "Message"
            ("song with id " ++ valueStr idv ++ " already present")), db)) ∧
    (findOne db.songs "id" idv = none →
      create_song body db =
        ((201, .jsonMsg "inserted id" (valueStr (insertOne db body).1)),
         (insertOne db body).2) ∧
      ∃ d', (insertOne db body).2.songs = db.songs ++ [d'] ∧
        ∀ k v, dlookup body k = some v → dlookup d' k = some v) := by
  constructor
  · intro d hf
    simp [create_song, hid, hf]
  · intro hf
    refine ⟨by simp [create_song, hid, hf], ?_⟩
    obtain ⟨d', h1, h2, _⟩ := insertOne_songs db body
    exact ⟨d', h1, h2⟩

/-- Witness for C2: id 1 collides on a one-song state and yields 302. -/
theorem C2_create_conflict_or_insert_witness :
    dlookup [("id", Value.vInt 1)] "id" = some (Value.vInt 1) ∧
    findOne dbA.songs "id" (Value.vInt 1) = some songA ∧
    create_song [("id", Value.vInt 1)] dbA =
      ((302, RespBody.jsonMsg "Message" "song with id 1 already present"), dbA) := by
  refine ⟨by decide, by decide, ?_⟩
  have h := (C2_create_conflict_or_insert [("id", Value.vInt 1)] dbA
      (Value.vInt 1) (by decide)).1 songA (by decide)
  simpa using h

/-! Claim C6 -/

/-- C6: for every body carrying a fresh integer id, POST /song answers 201 and
a following GET /song/(id) answers 200 with a document in which every field
of the body appears with the same value. -/
theorem C6_create_then_get (body : Doc) (db : DB) (n : Int)
    (hid : dlookup body "id" = some (.vInt n))
    (hf : findOne db.songs "id" (.vInt n) = none) :
    (create_song body db).1.1 = 201 ∧
    ∃ d, get_song_by_id n (create_song body db).2 =
        ((200, .jsonDoc d), (create_song body db).2) ∧
      ∀ k v, dlookup body k = some v → dlookup d k = some v := by
  have hstate : (create_song body db).2 = (insertOne db body).2 := by
    simp [create_song, hid, hf]
  have h201 : (create_song body db).1.1 = 201 := by
    simp [create_song, hid, hf]
  obtain ⟨d', hsongs, hpres, hdid⟩ := insertOne_songs db body
  have hfind : findOne (insertOne db body).2.songs "id" (.vInt n) = some d' := by
    rw [hsongs, findOne_append_none hf]
    have hd : dlookup d' "id" = some (Value.vInt n) := by rw [hdid, hid]
    simp [findOne, hd]
  refine ⟨h201, d', ?_, fun k v h => hpres k v h⟩
  rw [hstate]
  simp [get_song_by_id, hfind]

/-! Claim C7 -/

theorem idTags_of_forall2 {seed ds' : List Doc}
    (h : List.Forall₂ (fun r d => dlookup d "id" = dlookup r "id") seed ds') :
    idTags ds' = idTags seed := by
  induction h with
  | nil => rfl
  | cons h1 _ ih => simp [idTags_cons, h1, ih]

/-- C7: with a non-empty seed list, startup replaces the collection by the
seed records (every record inserted, in order, lookup-preserving), so
GET /count immediately after startup reports the number of seed records;
with an empty seed list the state is untouched. -/
theorem C7_startup_seeding (seed : List Doc) (db : DB) :
    (seed ≠ [] →
      List.Forall₂
        (fun r d => ∀ k v, dlookup r k = some v → dlookup d k = some v)
        seed (initDb seed db).songs ∧
      count (initDb seed db) =
        ((200, .jsonCount seed.length), initDb seed db)) ∧
    initDb [] db = db := by
  constructor
  · intro hne
    obtain ⟨ds', hsongs, hall⟩ := insertMany_songs ⟨[], db.next⟩ seed
    have hs2 : (initDb seed db).songs = ds' := by
      rw [initDb, if_neg (by simpa using hne)]
      simpa using hsongs
    constructor
    · rw [hs2]
      exact hall.imp (fun _ _ h => h.1)
    · have hlen : (initDb seed db).songs.length = seed.length := by
        rw [hs2, ← hall.length_eq]
      show ((200, RespBody.jsonCount (initDb seed db).songs.length),
          initDb seed db) = _
      rw [hlen]
  · rfl

/-- Witness for C7 on the two-record seed: /count answers 2. -/
theorem C7_startup_seeding_witness :
    seedAB ≠ [] ∧
    count (initDb seedAB ⟨[], 0⟩) =
      ((200, RespBody.jsonCount 2), initDb seedAB ⟨[], 0⟩) := by
  refine ⟨by decide, ?_⟩
  have h := ((C7_startup_seeding seedAB ⟨[], 0⟩).1 (by decide)).2
  simpa using h

/-! Claim C1 -/

/-- C1 is false as stated: the stored song has title "a" and lyrics "b", the
body carries the different title "X" and lyrics "Y", yet PUT /song/1 answers
with the no-op message instead of the updated song object, because the
handler compares against the re-fetched document, whose title and lyrics the
write has just set to the body values. -/
theorem C1_counterexample :
    (update_song 1 [("title", Value.vStr "X"), ("lyrics", Value.vStr "Y")] dbA).1 =
      (200, RespBody.jsonMsg "message" "song found, but nothing updated") ∧
    dlookup songA "title" = some (Value.vStr "a") ∧
    dlookup songA "lyrics" = some (Value.vStr "b") := by
  decide

/-- C1 (amended): for every PUT /song/(id) whose id matches a stored document
and whose body contains both title and lyrics and does not move the id to a
different value, the handler answers 200 with the message "song found, but
nothing updated" — whatever the stored title and lyrics were, since the
comparison runs after the write the two compared fields always agree with
the body, so the updated-song-object branch is unreachable for such
requests (and a body missing title or lyrics produces a 500 instead). -/
theorem C1_put_always_noop (id : Int) (body : Doc) (db : DB) (d : Doc)
    (h : findOne db.songs "id" (.vInt id) = some d)
    (hnd : (body.map Prod.fst).Nodup)
    (hbl : ∃ bl, dlookup body "lyrics" = some bl)
    (hbt : ∃ bt, dlookup body "title" = some bt)
    (hbid : dlookup body "id" = none ∨ dlookup body "id" = some (.vInt id)) :
    (update_song id body db).1 =
      (200, .jsonMsg "message" "song found, but nothing updated") := by
  obtain ⟨bl, hl⟩ := hbl
  obtain ⟨bt, ht⟩ := hbt
  have hd := findOne_some_lookup h
  have hsetid : dlookup (applySet d body) "id" = some (.vInt id) :=
    applySet_id_preserved hd hnd hbid
  have hfind2 := findOne_updateFirst h hsetid
  rw [update_song_found h]
  show updateResp _ body = _
  rw [hfind2]
  simp [updateResp, applySet_lookup_some _ hnd hl, hl,
    applySet_lookup_some _ hnd ht, ht]

/-- Witness for the amended C1: the counterexample input satisfies every
hypothesis and indeed yields the no-op message. -/
theorem C1_put_always_noop_witness :
    findOne dbA.songs "id" (Value.vInt 1) = some songA ∧
    (update_song 1 [("title", Value.vStr "X"), ("lyrics", Value.vStr "Y")] dbA).1 =
      (200, RespBody.jsonMsg "message" "song found, but nothing updated") :=
  ⟨by decide,
   C1_put_always_noop 1 [("title", Value.vStr "X"), ("lyrics", Value.vStr "Y")]
     dbA songA (by decide) (by decide)
     ⟨Value.vStr "Y", by decide⟩ ⟨Value.vStr "X", by decide⟩
     (Or.inl (by decide))⟩

/-! Claim C10 -/

/-- C10: PUT on an existing document is a field-wise merge: the first matching
document d is replaced in place by applySet d body (no other document is
touched), every key of the body ends up with the body value, and every
stored key the body does not mention keeps its previous value. -/
theorem C10_put_merge (id : Int) (body : Doc) (db : DB) (d : Doc)
    (h : findOne db.songs "id" (.vInt id) = some d)
    (hnd : (body.map Prod.fst).Nodup) :
    (∃ i, db.songs.get? i = some d ∧
      (∀ j, j < i → ∀ e, db.songs.get? j = some e →
        dlookup e "id" ≠ some (.vInt id)) ∧
      (update_song id body db).2.songs = db.songs.set i (applySet d body)) ∧
    (∀ k v, dlookup body k = some v → dlookup (applySet d body) k = some v) ∧
    (∀ k, dlookup body k = none → dlookup (applySet d body) k = dlookup d k) := by
  refine ⟨?_, fun k v hv => applySet_lookup_some _ hnd hv,
    fun k hv => applySet_lookup_none _ hv⟩
  obtain ⟨i, hi, hb, heq⟩ := updateFirst_eq_set body h
  refine ⟨i, hi, hb, ?_⟩
  rw [update_song_found h]
  simpa using heq

/-- Witness for C10: merging a title-and-lyrics body into the one-song
state. -/
theorem C10_put_merge_witness :
    findOne dbA.songs "id" (Value.vInt 1) = some songA ∧
    dlookup (applySet songA [("title", Value.vStr "X"), ("lyrics", Value.vStr "Y")])
      "title" = some (Value.vStr "X") ∧
    dlookup (applySet songA [("title", Value.vStr "X"), ("lyrics", Value.vStr "Y")])
      "_id" = dlookup songA "_id" := by
  refine ⟨by decide, ?_, ?_⟩
  · exact (C10_put_merge 1 [("title", Value.vStr "X"), ("lyrics", Value.vStr "Y")]
        dbA songA (by decide) (by decide)).2.1 "title" (Value.vStr "X") (by decide)
  · exact (C10_put_merge 1 [("title", Value.vStr "X"), ("lyrics", Value.vStr "Y")]
        dbA songA (by decide) (by decide)).2.2 "_id" (by decide)

/-! Claim C9 -/

/-- C9 is false as stated: in the reachable state `dupDB`, documents with id 2
exist, DELETE /song/2 answers 204, but the following GET /song/2 still
answers 200, because a second document with id 2 remains. -/
theorem C9_counterexample :
    (delete_song 2 dupDB).1 = (204, RespBody.emptyBody) ∧
    (get_song_by_id 2 (delete_song 2 dupDB).2).1.1 = 200 := by
  decide

/-- C9 (amended): DELETE /song/(id) with no matching document answers 404 with
message "song not found" and leaves the state unchanged; with a matching
document it answers 204 with an empty body and removes exactly the first
match; the subsequent GET /song/(id) answers 404 provided no other document
shares that id (ids unique), while in a duplicate-id state (reachable via
PUT) the GET can still answer 200. -/
theorem C9_delete_song_spec (id : Int) (db : DB) :
    (findOne db.songs "id" (.vInt id) = none →
      delete_song id db = ((404, .jsonMsg "message" "song not found"), db)) ∧
    (∀ d, findOne db.songs "id" (.vInt id) = some d →
      (delete_song id db).1 = (204, .emptyBody) ∧
      (∃ l1 l2, db.songs = l1 ++ d :: l2 ∧
        (delete_song id db).2.songs = l1 ++ l2) ∧
      (idsUnique db.songs →
        (get_song_by_id id (delete_song id db).2).1 =
          (404, .jsonMsg "message" "song with id not found"))) := by
  constructor
  · intro h
    rw [delete_song, deleteOne_of_none h]
    simp
  · intro d h
    obtain ⟨hc, l1, l2, hsplit, _, hsnd⟩ := deleteOne_of_some h
    have hstate : (delete_song id db).2 =
        { db with songs := (deleteOne db.songs "id" (.vInt id)).2 } := by
      rw [delete_song]
      rw [hc]
      simp
    have h204 : (delete_song id db).1 = (204, .emptyBody) := by
      rw [delete_song, hc]
      simp
    refine ⟨h204, ⟨l1, l2, hsplit, by rw [hstate, hsnd]⟩, ?_⟩
    intro hu
    have hnone : findOne (deleteOne db.songs "id" (.vInt id)).2 "id" (.vInt id) = none :=
      findOne_deleteOne_of_unique hu
    rw [hstate]
    simp [get_song_by_id, hnone]

/-- Witness for the amended C9 on the two-song state: deleting a missing id 9
gives 404, deleting id 2 gives 204 and a subsequent GET gives 404. -/
theorem C9_delete_song_spec_witness :
    findOne dbAB.songs "id" (Value.vInt 9) = none ∧
    delete_song 9 dbAB = ((404, RespBody.jsonMsg "message" "song not found"), dbAB) ∧
    findOne dbAB.songs "id" (Value.vInt 2) = some songB ∧
    idsUnique dbAB.songs ∧
    (delete_song 2 dbAB).1 = (204, RespBody.emptyBody) ∧
    (get_song_by_id 2 (delete_song 2 dbAB).2).1 =
      (404, RespBody.jsonMsg "message" "song with id not found") := by
  have h9 := (C9_delete_song_spec 9 dbAB).1 (by decide)
  have h2 := (C9_delete_song_spec 2 dbAB).2 songB (by decide)
  exact ⟨by decide, h9, by decide, by decide, h2.1, h2.2.2 (by decide)⟩

/-! Claim C5 -/

/-- C5 is false: starting from a two-record seed with distinct ids 1 and 2,
one PUT /song/1 whose body sets id to 2 reaches a state whose collection
holds two documents with id 2. -/
theorem C5_counterexample :
    Reachable dupDB ∧ ¬ idsUnique dupDB.songs := by
  constructor
  · exact Reachable.step (Reachable.init seedAB) (Step.putStep 1 putBodyDup _)
  · decide

/-- C5 (amended): POST refuses a duplicate id before inserting, DELETE and
the read endpoints preserve id-uniqueness, and startup seeding from a
unique-id seed yields unique ids; but PUT preserves uniqueness only when the
request body leaves the id unchanged — a body that sets id to another
existing id introduces a duplicate. -/
theorem C5_id_uniqueness_partial :
    (∀ db b, idsUnique db.songs → idsUnique ((create_song b db).2.songs)) ∧
    (∀ db i, idsUnique db.songs → idsUnique ((delete_song i db).2.songs)) ∧
    (∀ db i, (get_song_by_id i db).2 = db ∧ (songs db).2 = db ∧
      (count db).2 = db ∧ (health db).2 = db) ∧
    (∀ seed n, idsUnique seed → idsUnique ((initDb seed ⟨[], n⟩).songs)) ∧
    (∀ db i b, idsUnique db.songs → (b.map Prod.fst).Nodup →
      (dlookup b "id" = none ∨ dlookup b "id" = some (Value.vInt i)) →
      idsUnique ((update_song i b db).2.songs)) := by
  refine ⟨?_, ?_, ?_, ?_, ?_⟩
  · intro db b hu
    cases hid : dlookup b "id" with
    | none => simpa [create_song, hid] using hu
    | some idv =>
        cases hf : findOne db.songs "id" idv with
        | some d => simpa [create_song, hid, hf] using hu
        | none =>
            have hstate : (create_song b db).2 = (insertOne db b).2 := by
              simp [create_song, hid, hf]
            obtain ⟨d', hsongs, _, hdid⟩ := insertOne_songs db b
            rw [hstate, hsongs]
            show (idTags (db.songs ++ [d'])).Pairwise _
            rw [idTags_append]
            rw [List.pairwise_append]
            refine ⟨hu, by simp [idTags], ?_⟩
            intro a ha b' hb'
            obtain ⟨e, he, rfl⟩ := List.mem_map.mp ha
            have hb2 : b' = dlookup d' "id" := by
              simpa [idTags] using hb'
            have hne : dlookup e "id" ≠ some idv := findOne_eq_none.mp hf e he
            cases hcase : dlookup e "id" with
            | none => exact Or.inl rfl
            | some w =>
                refine Or.inr ?_
                rw [hb2, hdid, hid]
                rw [hcase] at hne
                simpa using hne
  · intro db i hu
    have hstate : (delete_song i db).2.songs =
        (deleteOne db.songs "id" (Value.vInt i)).2 := by
      by_cases h0 : (deleteOne db.songs "id" (Value.vInt i)).1 = 0 <;>
        simp [delete_song, h0]
    rw [hstate]
    exact idsUnique_of_sublist (deleteOne_sublist _ _ _) hu
  · intro db i
    refine ⟨?_, rfl, rfl, rfl⟩
    cases h : findOne db.songs "id" (Value.vInt i) <;>
      simp [get_song_by_id, h]
  · intro seed n hu
    by_cases hs : seed = []
    · subst hs
      simp only [initDb, List.isEmpty_nil, if_true]
      exact hu
    · obtain ⟨ds', hsongs, hall⟩ := insertMany_songs ⟨[], n⟩ seed
      have hs2 : (initDb seed ⟨[], n⟩).songs = ds' := by
        rw [initDb, if_neg (by simpa using hs)]
        simpa using hsongs
      rw [hs2]
      show (idTags ds').Pairwise _
      rw [idTags_of_forall2 (hall.imp (fun _ _ h => h.2))]
      exact hu
  · intro db i b hu hnd hbid
    cases hf : findOne db.songs "id" (Value.vInt i) with
    | none => simpa [update_song_missing hf] using hu
    | some d =>
        rw [update_song_found hf]
        show (idTags (updateFirst db.songs "id" (Value.vInt i) b)).Pairwise _
        rw [idTags_updateFirst]
        · exact hu
        · intro e he
          rcases hbid with hb | hb
          · rw [applySet_lookup_none _ hb]
          · rw [applySet_lookup_some _ hnd hb, he]

/-- Witness for the amended C5: POST of a fresh id 3 and DELETE of id 1 keep
the two-song state duplicate-free. -/
theorem C5_id_uniqueness_partial_witness :
    idsUnique dbAB.songs ∧
    idsUnique ((create_song [("id", Value.vInt 3)] dbAB).2.songs) ∧
    idsUnique ((delete_song 1 dbAB).2.songs) := by
  have hu : idsUnique dbAB.songs := by decide
  exact ⟨hu, C5_id_uniqueness_partial.1 dbAB [("id", Value.vInt 3)] hu,
    C5_id_uniqueness_partial.2.1 dbAB 1 hu⟩

/-! Claim C3 -/

/-- C3 is false: PUT /song/1 with the body consisting only of a new title
answers 500 (KeyError on the missing lyrics key, raised after the write),
yet the collection differs from its pre-request state — the title of the
stored document has already been rewritten. -/
theorem C3_counterexample :
    (update_song 1 [("title", Value.vStr "X")] dbA).1.1 = 500 ∧
    (update_song 1 [("title", Value.vStr "X")] dbA).2 ≠ dbA := by
  decide

/-- C3 (amended): the read endpoints (health, count, list, get-by-id) never
modify the collection, and POST leaves the state unchanged whenever it
answers 500 (its only deterministic failure, a body without an id, precedes
the insert call); PUT however can answer 500 after its write has already
modified the collection, so the all-or-nothing property does not hold for
every endpoint, and the PUT handler in fact performs three database calls,
not one. -/
theorem C3_error_isolation_partial :
    (∀ db i, (get_song_by_id i db).2 = db) ∧
    (∀ db, (songs db).2 = db ∧ (count db).2 = db ∧ (health db).2 = db) ∧
    (∀ db b, (create_song b db).1.1 = 500 → (create_song b db).2 = db) := by
  refine ⟨?_, fun db => ⟨rfl, rfl, rfl⟩, ?_⟩
  · intro db i
    cases h : findOne db.songs "id" (Value.vInt i) <;>
      simp [get_song_by_id, h]
  · intro db b h500
    cases hid : dlookup b "id" with
    | none => simp [create_song, hid]
    | some idv =>
        cases hf : findOne db.songs "id" idv with
        | some d => simp [create_song, hid, hf]
        | none => simp [create_song, hid, hf] at h500

/-- Witness for the amended C3: a POST without an id answers 500 and changes
nothing; a GET leaves the state untouched. -/
theorem C3_error_isolation_partial_witness :
    (create_song [] dbA).1.1 = 500 ∧ (create_song [] dbA).2 = dbA ∧
    (get_song_by_id 7 dbA).2 = dbA :=
  ⟨by decide, C3_error_isolation_partial.2.2 dbA [] (by decide),
   C3_error_isolation_partial.1 dbA 7⟩

/-! Claim C4 -/

/-- C4 is false: GET /song/1 on a one-song state answers 200 with the stored
document, and that document carries the internal identifier under the key
"_id" — the handlers serialise with json_util.dumps and never strip it. -/
theorem C4_counterexample :
    (get_song_by_id 1 dbA).1 = (200, RespBody.jsonDoc songA) ∧
    dlookup songA "_id" = some (Value.vOid 0) := by
  decide

/-- C4 (amended): GET /song/(id) returns the stored document with every key it
holds, the internal "_id" included (rendered by json_util.dumps in extended
JSON), and GET /song likewise returns the stored documents unstripped; the
internal identifier therefore appears in read responses as well as in the
201 creation acknowledgment. -/
theorem C4_id_exposed (db : DB) (i : Int) (d : Doc)
    (h : findOne db.songs "id" (.vInt i) = some d) :
    get_song_by_id i db = ((200, .jsonDoc d), db) ∧
    songs db = ((200, .jsonDocList db.songs), db) :=
  ⟨by simp [get_song_by_id, h], rfl⟩

/-- Witness for the amended C4: in the one-song state the returned document is
songA, whose "_id" key is the internal identifier. -/
theorem C4_id_exposed_witness :
    findOne dbA.songs "id" (Value.vInt 1) = some songA ∧
    get_song_by_id 1 dbA = ((200, RespBody.jsonDoc songA), dbA) ∧
    dlookup songA "_id" = some (Value.vOid 0) :=
  ⟨by decide, (C4_id_exposed dbA 1 songA (by decide)).1, by decide⟩

/-- Witness for C6: POST of a fresh id 3 then GET /song/3 answers 200. -/
theorem C6_create_then_get_witness :
    dlookup [("id", Value.vInt 3), ("title", Value.vStr "t")] "id" =
      some (Value.vInt 3) ∧
    findOne dbA.songs "id" (Value.vInt 3) = none ∧
    (create_song [("id", Value.vInt 3), ("title", Value.vStr "t")] dbA).1.1 = 201 ∧
    (get_song_by_id 3
      (create_song [("id", Value.vInt 3), ("title", Value.vStr "t")] dbA).2).1.1 = 200 := by
  obtain ⟨h201, d, hget, _⟩ := C6_create_then_get
    [("id", Value.vInt 3), ("title", Value.vStr "t")] dbA 3 (by decide) (by decide)
  exact ⟨by decide, by decide, h201, by rw [hget]⟩
